import Mathlib

/-!
Shallow embedding of the property-recommendation service
(`src/backend/main.py`) and proofs about its recommendation pipeline.

The pipeline is a single endpoint handler `recommend_properties`:
filter the property table by hard constraints, score survivors with a
pre-trained model bundle, sort by score descending, truncate to
`max_results`, and present each row as a recommendation record.

Modelling conventions:
- a pandas `DataFrame` of property rows is a `List Row`;
- numeric columns are `Int`, model-feature values and scores are `ℚ`;
- the model bundle dict is `Option ModelBundle` (`none` for the empty
  dict left behind by a failed `joblib.load`); accessing a key of the
  empty dict raises `KeyError`, modelled as `RecErr.keyError`;
- fallible steps return `Except RecErr`;
- `df.sort_values(by:=score, ascending:=False)` with the default
  `kind:='quicksort'` guarantees only a score-descending permutation of
  its input (pandas documents the default sort as unstable). The
  deterministic handler embedding instantiates it with one admissible
  output (`List.insertionSort`), and every property that depends on the
  order of equal-score rows is judged against the relational contract
  `IsSortValuesResult`, i.e. against all admissible outputs; `df.head n`
  follows pandas semantics including negative `n` (all rows but the
  last `-n`);
- Python truthiness of `prefs.city` (`None` and `""` are both falsy) is
  modelled by `truthy`.
-/

deriving instance DecidableEq for Except

namespace PropertyRec

attribute [local semireducible] Rat.mul Rat.add Rat.sub Rat.inv Rat.ofScientific

/-- A row of the property dataset (one record of the Dataset Store).
Named fields are the columns used by the filter and presentation steps;
`extra` holds any additional feature columns the model may consume. -/
structure Row where
  property_id : String
  address : String
  price : Int
  bedrooms : Int
  commute_time_min : Int
  school_rating : Int
  has_pool : Bool
  garage_spaces : Int
  city : String
  extra : List (String × ℚ) := []
deriving Repr, DecidableEq

/-- Column access on a row by column name, as `df[c]` selects a column:
the named schema columns first, then the open set of extra feature
columns; `none` models a missing column (pandas `KeyError`). -/
def Row.col (r : Row) (c : String) : Option ℚ :=
  if c = "price" then some (r.price : ℚ)
  else if c = "bedrooms" then some (r.bedrooms : ℚ)
  else if c = "commute_time_min" then some (r.commute_time_min : ℚ)
  else if c = "school_rating" then some (r.school_rating : ℚ)
  else if c = "has_pool" then some (if r.has_pool then 1 else 0)
  else if c = "garage_spaces" then some (r.garage_spaces : ℚ)
  else r.extra.lookup c

/-- The `UserPreferences` pydantic model with its declared defaults. -/
structure UserPreferences where
  budget_min : Int := 200000
  budget_max : Int := 1000000
  city : Option String := none
  min_bedrooms : Int := 1
  max_commute_time_minutes : Int := 60
  min_school_rating : Int := 1
  must_have_features : List String := []
  lifestyle_preferences : List String := []
  size_preference : String := "any"
  min_garage_spaces : Int := 0
deriving Repr, DecidableEq

/-- The `RecommendationRequest` pydantic model. -/
structure RecommendationRequest where
  user_preferences : UserPreferences
  max_results : Int := 3
deriving Repr, DecidableEq

/-- The `PropertyRecommendation` response record. -/
structure PropertyRecommendation where
  property_id : String
  address : String
  price : Int
  score : ℚ
  reason : String
deriving Repr, DecidableEq

/-- The `RecommendationResponse` body. -/
structure RecommendationResponse where
  recommendations : List PropertyRecommendation
deriving Repr, DecidableEq

/-- The model bundle loaded from the pickle: ordered feature-name list,
scaling transform, and the scoring model, which exposes `predict` and
optionally `predict_proba` (`hasattr(model, 'predict_proba')` is
`predictProba?.isSome`). -/
structure ModelBundle where
  features : List String
  scaler : List (List ℚ) → List (List ℚ)
  predictProba? : Option (List (List ℚ) → List (List ℚ)) := none
  predict : List (List ℚ) → List ℚ

/-- Request-level failures of the handler: an explicit
`HTTPException(status, detail)`, a Python `KeyError` (missing dict key or
missing dataframe column), an `IndexError` from `[:, 1]` on an array with
fewer than two columns, and a length mismatch when assigning the
prediction array as the `score` column. -/
inductive RecErr where
  | httpError (status : Nat) (detail : String)
  | keyError (key : String)
  | indexError
  | lengthMismatch
deriving Repr, DecidableEq

/-- Python truthiness of the optional `city` string: `None` and the
empty string are falsy, any other string is truthy. -/
def truthy : Option String → Bool
  | none => false
  | some s => !(s == "")

/-- The filter chain of `recommend_properties` (main.py lines 88-97),
applied to a working copy of the dataset in source order. -/
def filterProps (store : List Row) (p : UserPreferences) : List Row :=
  let df := store
  let df := df.filter fun r => decide (p.budget_min ≤ r.price) && decide (r.price ≤ p.budget_max)
  let df := df.filter fun r => decide (p.min_bedrooms ≤ r.bedrooms)
  let df := df.filter fun r => decide (r.commute_time_min ≤ p.max_commute_time_minutes)
  let df := df.filter fun r => decide (p.min_school_rating ≤ r.school_rating)
  let df := if truthy p.city then df.filter (fun r => r.city == p.city.getD "") else df
  let df := if p.must_have_features.contains "pool" then df.filter (fun r => r.has_pool) else df
  df.filter fun r => decide (p.min_garage_spaces ≤ r.garage_spaces)

/-- Feature extraction `df[features]`: for each row, the feature columns
in the bundle's declared order; a missing column raises `KeyError`. -/
def extractX (features : List String) (rows : List Row) : Except RecErr (List (List ℚ)) :=
  rows.mapM fun r => features.mapM fun c =>
    match r.col c with
    | some v => Except.ok v
    | none => Except.error (RecErr.keyError c)

/-- Column 1 of a matrix, as `preds[:, 1]` on a probability matrix;
fewer than two columns in a row raises `IndexError`. -/
def col1 (m : List (List ℚ)) : Except RecErr (List ℚ) :=
  m.mapM fun probs =>
    match probs[1]? with
    | some v => Except.ok v
    | none => Except.error RecErr.indexError

/-- The prediction step on the scaled matrix (main.py line 107):
`model.predict_proba(X)[:, 1] if hasattr(model, 'predict_proba') else model.predict(X)`. -/
def bundlePreds (b : ModelBundle) (X : List (List ℚ)) : Except RecErr (List ℚ) :=
  match b.predictProba? with
  | some pp => col1 (pp X)
  | none => Except.ok (b.predict X)

/-- The scoring stage (main.py lines 106-109): extract the feature
columns, scale, predict, and attach the per-row score to each candidate
row (`df.zip preds` models `df['score'] = preds`, which requires the
prediction array to have one entry per row). -/
def scoreCandidates (b : ModelBundle) (df : List Row) : Except RecErr (List (Row × ℚ)) :=
  match extractX b.features df with
  | Except.error e => Except.error e
  | Except.ok raw =>
    match bundlePreds b (b.scaler raw) with
    | Except.error e => Except.error e
    | Except.ok preds =>
      if preds.length = df.length then Except.ok (df.zip preds)
      else Except.error RecErr.lengthMismatch

/-- Comparator of `sort_values(by:=score, ascending:=False)`: row `a`
may precede row `b` when `a`'s score is at least `b`'s. -/
def scoreDesc (a b : Row × ℚ) : Prop := b.2 ≤ a.2

instance : DecidableRel scoreDesc := fun a b => inferInstanceAs (Decidable (b.2 ≤ a.2))

instance : IsTotal (Row × ℚ) scoreDesc := ⟨fun a b => le_total b.2 a.2⟩

instance : IsTrans (Row × ℚ) scoreDesc := ⟨fun _ _ _ h1 h2 => le_trans h2 h1⟩

/-- Pandas `df.head n`: the first `n` rows for nonnegative `n`, and all
rows but the last `-n` for negative `n`. -/
def pandasHead (l : List α) (n : Int) : List α :=
  l.take (if 0 ≤ n then n.toNat else l.length - (-n).toNat)

/-- Ranking (main.py line 110): sort the scored rows by score
descending and truncate with `head max_results`. The deterministic
embedding picks one concrete admissible output of the code's sort
(`List.insertionSort`); the code's own `sort_values` with the default
`kind:='quicksort'` guarantees only a score-descending permutation and
NO particular order of equal-score rows, so properties of tie order
are never read off this definition — they are judged against the
relational contract `IsSortValuesResult` below. -/
def rankRows (scored : List (Row × ℚ)) (n : Int) : List (Row × ℚ) :=
  pandasHead (scored.insertionSort scoreDesc) n

/-- The reason template of main.py line 114. -/
def mkReason (r : Row) : String :=
  "Located in " ++ r.city ++ ", " ++ toString r.bedrooms ++ " BR, $" ++
    toString r.price ++ " - School rating: " ++ toString r.school_rating

/-- Floor of a rational, computably: numerator divided by denominator
with Euclidean division (the denominator is positive). -/
def qfloor (x : ℚ) : ℤ := x.num / (x.den : ℤ)

/-- Rounding half to even, the semantics of Python's builtin `round`. -/
def roundHE (x : ℚ) : ℤ :=
  if x - qfloor x < 1/2 then qfloor x
  else if 1/2 < x - qfloor x then qfloor x + 1
  else if qfloor x % 2 = 0 then qfloor x else qfloor x + 1

/-- Rounding to two decimal places, as Python `round(x, 2)`. -/
def round2 (x : ℚ) : ℚ := (roundHE (x * 100) : ℚ) / 100

/-- Presentation of one scored row (main.py lines 115-121): the score is
rescaled by 100 and rounded to two decimals. -/
def mkRec (sr : Row × ℚ) : PropertyRecommendation :=
  { property_id := sr.1.property_id
    address := sr.1.address
    price := sr.1.price
    score := round2 (sr.2 * 100)
    reason := mkReason sr.1 }

/-- The endpoint handler `recommend_properties` (main.py lines 79-123):
empty-store check, filter chain, empty-result short-circuit, bundle
access (`KeyError` on the empty bundle), scoring, ranking, presentation. -/
def recommend_properties (property_data : List Row) (model_bundle : Option ModelBundle)
    (req : RecommendationRequest) : Except RecErr RecommendationResponse :=
  let prefs := req.user_preferences
  if property_data.isEmpty then
    Except.error (RecErr.httpError 500 "No property data available")
  else
    let df := filterProps property_data prefs
    if df.isEmpty then
      Except.ok ⟨[]⟩
    else
      match model_bundle with
      | none => Except.error (RecErr.keyError "model")
      | some b =>
        match scoreCandidates b df with
        | Except.error e => Except.error e
        | Except.ok scored =>
          Except.ok ⟨(rankRows scored req.max_results).map mkRec⟩

/-- The process-wide state: the Dataset Store and the Model Bundle
globals of main.py. -/
structure ServerState where
  property_data : List Row
  model_bundle : Option ModelBundle

/-- The handler as a state transformer over the process-wide globals:
the body only reads `property_data` (through `copy`) and `model_bundle`
and never assigns either global, so the state it returns is the state it
was given. -/
def recommend_handler (st : ServerState) (req : RecommendationRequest) :
    ServerState × Except RecErr RecommendationResponse :=
  let resp := recommend_properties st.property_data st.model_bundle req
  (st, resp)

/-! ### Rounding lemmas -/

theorem qfloor_eq_floor (x : ℚ) : qfloor x = ⌊x⌋ := Rat.floor_def.symm

theorem qfloor_mono {x y : ℚ} (h : x ≤ y) : qfloor x ≤ qfloor y := by
  rw [qfloor_eq_floor, qfloor_eq_floor]; exact Int.floor_mono h

theorem le_qfloor {n : ℤ} {x : ℚ} (h : (n : ℚ) ≤ x) : n ≤ qfloor x := by
  rw [qfloor_eq_floor]; exact Int.le_floor.mpr h

theorem qfloor_le_self {x : ℚ} : (qfloor x : ℚ) ≤ x := by
  rw [qfloor_eq_floor]; exact Int.floor_le x

theorem qfloor_le_roundHE (x : ℚ) : qfloor x ≤ roundHE x := by
  unfold roundHE; split_ifs <;> omega

theorem roundHE_le_qfloor_add_one (x : ℚ) : roundHE x ≤ qfloor x + 1 := by
  unfold roundHE; split_ifs <;> omega

theorem le_roundHE {n : ℤ} {x : ℚ} (h : (n : ℚ) ≤ x) : n ≤ roundHE x :=
  le_trans (le_qfloor h) (qfloor_le_roundHE x)

theorem roundHE_le {n : ℤ} {x : ℚ} (h : x ≤ (n : ℚ)) : roundHE x ≤ n := by
  have hf : qfloor x ≤ n := by
    have h2 : qfloor x ≤ qfloor (n : ℚ) := qfloor_mono h
    simpa [qfloor_eq_floor] using h2
  rcases lt_or_eq_of_le hf with hlt | heq
  · exact le_trans (roundHE_le_qfloor_add_one x) (by omega)
  · have hx0 : x - qfloor x < 1/2 := by
      have h3 : x ≤ (qfloor x : ℚ) := by rw [heq]; exact h
      linarith
    unfold roundHE
    rw [if_pos hx0]
    exact hf

theorem roundHE_mono {x y : ℚ} (h : x ≤ y) : roundHE x ≤ roundHE y := by
  have hq : qfloor x ≤ qfloor y := qfloor_mono h
  rcases lt_or_eq_of_le hq with hlt | heq
  · calc roundHE x ≤ qfloor x + 1 := roundHE_le_qfloor_add_one x
      _ ≤ qfloor y := by omega
      _ ≤ roundHE y := qfloor_le_roundHE y
  · unfold roundHE
    rw [← heq]
    split_ifs <;> first | omega | linarith

theorem round2_mono {x y : ℚ} (h : x ≤ y) : round2 x ≤ round2 y := by
  unfold round2
  have h1 : roundHE (x * 100) ≤ roundHE (y * 100) :=
    roundHE_mono (by linarith)
  have h2 : ((roundHE (x * 100) : ℤ) : ℚ) ≤ ((roundHE (y * 100) : ℤ) : ℚ) := by
    exact_mod_cast h1
  linarith

theorem round2_nonneg {x : ℚ} (h : 0 ≤ x) : 0 ≤ round2 x := by
  unfold round2
  have h1 : (0 : ℤ) ≤ roundHE (x * 100) := le_roundHE (by push_cast; linarith)
  have h2 : (0 : ℚ) ≤ ((roundHE (x * 100) : ℤ) : ℚ) := by exact_mod_cast h1
  linarith

theorem round2_le_100 {x : ℚ} (h : x ≤ 100) : round2 x ≤ 100 := by
  unfold round2
  have h1 : roundHE (x * 100) ≤ (10000 : ℤ) := roundHE_le (by push_cast; linarith)
  have h2 : ((roundHE (x * 100) : ℤ) : ℚ) ≤ 10000 := by exact_mod_cast h1
  linarith

/-! ### The Preference Filter as a single conjunction -/

/-- The conjunction of the filter's predicates, as one row predicate:
price within budget, enough bedrooms, commute short enough, school
rating high enough, city match when a non-empty city is given, pool when
required, enough garage spaces. -/
def passesAll (p : UserPreferences) (r : Row) : Bool :=
  (decide (p.budget_min ≤ r.price) && decide (r.price ≤ p.budget_max))
    && decide (p.min_bedrooms ≤ r.bedrooms)
    && decide (r.commute_time_min ≤ p.max_commute_time_minutes)
    && decide (p.min_school_rating ≤ r.school_rating)
    && (!truthy p.city || r.city == p.city.getD "")
    && (!p.must_have_features.contains "pool" || r.has_pool)
    && decide (p.min_garage_spaces ≤ r.garage_spaces)

theorem filterProps_eq_filter (store : List Row) (p : UserPreferences) :
    filterProps store p = store.filter (passesAll p) := by
  unfold filterProps
  rcases Bool.eq_false_or_eq_true (truthy p.city) with hc | hc <;>
    rcases Bool.eq_false_or_eq_true (p.must_have_features.contains "pool") with hp | hp <;>
    simp only [hc, hp, Bool.false_eq_true, if_true, if_false, List.filter_filter] <;>
    (apply List.filter_congr; intro r _; rw [Bool.eq_iff_iff]) <;>
    simp only [passesAll, hc, hp, Bool.and_eq_true, Bool.or_eq_true, Bool.not_eq_true',
      decide_eq_true_eq, beq_iff_eq, Bool.not_false, Bool.not_true, Bool.true_eq_false,
      Bool.false_eq_true, true_or, false_or] <;>
    tauto

theorem filterProps_sublist (store : List Row) (p : UserPreferences) :
    List.Sublist (filterProps store p) store := by
  rw [filterProps_eq_filter]; exact List.filter_sublist store

theorem mem_filterProps {store : List Row} {p : UserPreferences} {r : Row}
    (h : r ∈ filterProps store p) : r ∈ store ∧ passesAll p r = true := by
  rw [filterProps_eq_filter] at h
  exact List.mem_filter.mp h

/-! ### Ranking lemmas -/

theorem pandasHead_eq_take (l : List α) (n : Int) :
    pandasHead l n = l.take (if 0 ≤ n then n.toNat else l.length - (-n).toNat) := rfl

theorem pandasHead_sublist (l : List α) (n : Int) : List.Sublist (pandasHead l n) l :=
  List.take_sublist _ l

theorem pandasHead_length_le (l : List α) (n : Int) : (pandasHead l n).length ≤ l.length :=
  (pandasHead_sublist l n).length_le

theorem pandasHead_length_le_of_nonneg (l : List α) {n : Int} (h : 0 ≤ n) :
    ((pandasHead l n).length : Int) ≤ n := by
  unfold pandasHead
  rw [if_pos h, List.length_take]
  have h1 : min n.toNat l.length ≤ n.toNat := Nat.min_le_left _ _
  omega

theorem rankRows_sublist_sorted (scored : List (Row × ℚ)) (n : Int) :
    List.Sublist (rankRows scored n) (scored.insertionSort scoreDesc) :=
  pandasHead_sublist _ n

theorem rankRows_sorted (scored : List (Row × ℚ)) (n : Int) :
    (rankRows scored n).Pairwise scoreDesc :=
  (List.sorted_insertionSort scoreDesc scored).sublist (rankRows_sublist_sorted scored n)

theorem rankRows_length_le (scored : List (Row × ℚ)) (n : Int) :
    (rankRows scored n).length ≤ scored.length := by
  have h := pandasHead_length_le (scored.insertionSort scoreDesc) n
  rwa [List.length_insertionSort] at h

theorem rankRows_mem {scored : List (Row × ℚ)} {n : Int} {sr : Row × ℚ}
    (h : sr ∈ rankRows scored n) : sr ∈ scored := by
  have h1 : sr ∈ scored.insertionSort scoreDesc :=
    (rankRows_sublist_sorted scored n).subset h
  exact (List.mem_insertionSort scoreDesc).mp h1

/-- What line 110's `sort_values(by:=score, ascending:=False)` is
guaranteed to produce: some permutation of its input that is sorted by
score descending. Pandas' default `kind:='quicksort'` documents no
stability, so the code promises nothing about the order of equal-score
rows beyond this contract; any claim about tie order must be judged
against every output this relation admits. -/
def IsSortValuesResult (scored out : List (Row × ℚ)) : Prop :=
  out.Perm scored ∧ out.Pairwise scoreDesc

/-- The deterministic embedding's sort is one output admitted by the
sort contract of line 110. -/
theorem insertionSort_isSortValuesResult (scored : List (Row × ℚ)) :
    IsSortValuesResult scored (scored.insertionSort scoreDesc) :=
  ⟨List.perm_insertionSort scoreDesc scored, List.sorted_insertionSort scoreDesc scored⟩

/-! ### Handler case analysis -/

theorem scoreCandidates_ok {b : ModelBundle} {df : List Row} {scored : List (Row × ℚ)}
    (h : scoreCandidates b df = Except.ok scored) :
    ∃ raw preds, extractX b.features df = Except.ok raw ∧
      bundlePreds b (b.scaler raw) = Except.ok preds ∧
      preds.length = df.length ∧ scored = df.zip preds := by
  unfold scoreCandidates at h
  cases hx : extractX b.features df with
  | error e => rw [hx] at h; cases h
  | ok raw =>
    rw [hx] at h
    dsimp only at h
    cases hp : bundlePreds b (b.scaler raw) with
    | error e => rw [hp] at h; cases h
    | ok preds =>
      rw [hp] at h
      dsimp only at h
      by_cases hl : preds.length = df.length
      · rw [if_pos hl] at h; cases h; exact ⟨raw, preds, rfl, hp, hl, rfl⟩
      · rw [if_neg hl] at h; cases h

theorem recommend_ok_cases {store : List Row} {bundle : Option ModelBundle}
    {req : RecommendationRequest} {resp : RecommendationResponse}
    (h : recommend_properties store bundle req = Except.ok resp) :
    (resp = ⟨[]⟩ ∧ (filterProps store req.user_preferences).isEmpty = true
        ∧ store.isEmpty = false) ∨
    (∃ b scored, bundle = some b ∧
      scoreCandidates b (filterProps store req.user_preferences) = Except.ok scored ∧
      resp = ⟨(rankRows scored req.max_results).map mkRec⟩ ∧
      store.isEmpty = false ∧ (filterProps store req.user_preferences).isEmpty = false) := by
  simp only [recommend_properties] at h
  by_cases h1 : store.isEmpty = true
  · rw [if_pos h1] at h; cases h
  · rw [if_neg h1] at h
    by_cases h2 : (filterProps store req.user_preferences).isEmpty = true
    · rw [if_pos h2] at h
      cases h
      exact Or.inl ⟨rfl, h2, by simpa using h1⟩
    · rw [if_neg h2] at h
      cases bundle with
      | none => cases h
      | some b =>
        dsimp only at h
        cases hs : scoreCandidates b (filterProps store req.user_preferences) with
        | error e => rw [hs] at h; cases h
        | ok scored =>
          rw [hs] at h
          dsimp only at h
          cases h
          exact Or.inr ⟨b, scored, rfl, hs, rfl, by simpa using h1, by simpa using h2⟩

/-- Every recommendation of a successful response arises as the
presentation of a scored row whose underlying row survived the filter. -/
theorem recommend_rec_provenance {store : List Row} {bundle : Option ModelBundle}
    {req : RecommendationRequest} {resp : RecommendationResponse}
    {rec : PropertyRecommendation}
    (h : recommend_properties store bundle req = Except.ok resp)
    (hrec : rec ∈ resp.recommendations) :
    ∃ b scored sr, bundle = some b ∧
      scoreCandidates b (filterProps store req.user_preferences) = Except.ok scored ∧
      sr ∈ scored ∧ sr.1 ∈ filterProps store req.user_preferences ∧ rec = mkRec sr := by
  rcases recommend_ok_cases h with ⟨hresp, _, _⟩ | ⟨b, scored, hb, hs, hresp, _, _⟩
  · rw [hresp] at hrec; cases hrec
  · rw [hresp] at hrec
    rcases List.mem_map.mp hrec with ⟨sr, hsr, hmk⟩
    have hmem : sr ∈ scored := rankRows_mem hsr
    rcases scoreCandidates_ok hs with ⟨raw, preds, _, _, _, hzip⟩
    obtain ⟨r, s⟩ := sr
    have hr : r ∈ filterProps store req.user_preferences := by
      rw [hzip] at hmem
      exact (List.of_mem_zip hmem).1
    exact ⟨b, scored, (r, s), hb, hs, hmem, hr, hmk.symm⟩

/-! ### Concrete fixtures for witnesses and counterexamples -/

/-- A sample dataset row that satisfies the default preferences. -/
def sampleRow : Row :=
  { property_id := "P1", address := "1 Main St", price := 500000, bedrooms := 3,
    commute_time_min := 20, school_rating := 8, has_pool := false,
    garage_spaces := 2, city := "Denver" }

/-- A second sample row, identical except for its identifier. -/
def sampleRow2 : Row := { sampleRow with property_id := "P2" }

/-- A third sample row, identical except for its identifier. -/
def sampleRow3 : Row := { sampleRow with property_id := "P3" }

/-- A bundle whose model exposes only `predict`, returning the constant
raw score 2 for every row (e.g. a regression-style model). -/
def constBundle : ModelBundle :=
  { features := ["price"], scaler := fun X => X, predict := fun X => X.map fun _ => 2 }

/-- A bundle whose model exposes `predict_proba` with two classes, the
positive class having probability 3/4. -/
def probaBundle : ModelBundle :=
  { features := ["price"], scaler := fun X => X,
    predictProba? := some fun X => X.map fun _ => [1/4, 3/4],
    predict := fun X => X.map fun _ => 0 }

/-- A bundle scoring each row by its price scaled into [0, 1]. -/
def priceBundle : ModelBundle :=
  { features := ["price"], scaler := fun X => X,
    predict := fun X => X.map fun v => v.headD 0 / 1000000 }

/-- A request with all preference defaults and the default `max_results`. -/
def defaultReq : RecommendationRequest := { user_preferences := {} }

/-- A request nothing in the sample store satisfies. -/
def pickyReq : RecommendationRequest := { user_preferences := { min_bedrooms := 10 } }

/-- A request with a negative `max_results`. -/
def negReq : RecommendationRequest := { user_preferences := {}, max_results := -1 }

/-- The recommendation the handler produces for `sampleRow` under
`probaBundle`: probability 3/4 presents as score 75. -/
def sampleProbaRec : PropertyRecommendation :=
  { property_id := "P1", address := "1 Main St", price := 500000, score := 75,
    reason := "Located in Denver, 3 BR, $500000 - School rating: 8" }

/-- The recommendation the handler produces for `sampleRow` under
`constBundle`: raw score 2 presents as score 200. -/
def constRec : PropertyRecommendation :=
  { property_id := "P1", address := "1 Main St", price := 500000, score := 200,
    reason := "Located in Denver, 3 BR, $500000 - School rating: 8" }

/-- A cheaper sample row (price 400000). -/
def rowCheap : Row := { sampleRow with property_id := "P2", price := 400000 }

/-- A dearer sample row (price 600000). -/
def rowDear : Row := { sampleRow with property_id := "P3", price := 600000 }

/-- Under `priceBundle`, `rowDear` presents with score 60. -/
def recHigh : PropertyRecommendation :=
  { property_id := "P3", address := "1 Main St", price := 600000, score := 60,
    reason := "Located in Denver, 3 BR, $600000 - School rating: 8" }

/-- Under `priceBundle`, `sampleRow` presents with score 50. -/
def recMid : PropertyRecommendation :=
  { property_id := "P1", address := "1 Main St", price := 500000, score := 50,
    reason := "Located in Denver, 3 BR, $500000 - School rating: 8" }

/-- Under `priceBundle`, `rowCheap` presents with score 40. -/
def recLow : PropertyRecommendation :=
  { property_id := "P2", address := "1 Main St", price := 400000, score := 40,
    reason := "Located in Denver, 3 BR, $400000 - School rating: 8" }

/-- Two distinct candidate rows carrying the same score 1/2, in their
source order. -/
def tieScored : List (Row × ℚ) := [(sampleRow, 1/2), (sampleRow2, 1/2)]

/-- The same two tied rows in the opposite order: also a permutation of
`tieScored` sorted by score descending, hence an output the code's
unstable sort may produce. -/
def tieSwapped : List (Row × ℚ) := [(sampleRow2, 1/2), (sampleRow, 1/2)]

/-! ### Claim theorems -/

/-- C4: while the Dataset Store is non-empty and the Model Bundle is
absent, a request whose filter result is non-empty fails with the
model-access error (the `KeyError` raised on the empty bundle dict) —
it neither succeeds nor returns fabricated or zero scores. -/
theorem C4_absent_bundle_errors :
    ∀ (store : List Row) (req : RecommendationRequest), store.isEmpty = false →
      (filterProps store req.user_preferences).isEmpty = false →
      recommend_properties store none req = Except.error (RecErr.keyError "model") := by
  intro store req h1 h2
  simp only [recommend_properties]
  rw [if_neg (by simp [h1]), if_neg (by simp [h2])]

/-- Witness for C4 at a concrete store and request. -/
theorem C4_witness :
    recommend_properties [sampleRow] none defaultReq = Except.error (RecErr.keyError "model") :=
  C4_absent_bundle_errors [sampleRow] defaultReq (by decide) (by decide)

/-- C5: while the Dataset Store is empty, every request fails with
HTTP status 500 and the detail message, uniformly in the bundle and in
the request — so the failure precedes any filtering, scoring or
ranking, none of which can influence the result. -/
theorem C5_empty_store_500 :
    ∀ (store : List Row), store.isEmpty = true →
      ∀ (bundle : Option ModelBundle) (req : RecommendationRequest),
        recommend_properties store bundle req =
          Except.error (RecErr.httpError 500 "No property data available") := by
  intro store h bundle req
  simp only [recommend_properties]
  rw [if_pos h]

/-- Witness for C5 at the empty store. -/
theorem C5_witness :
    recommend_properties [] none defaultReq =
      Except.error (RecErr.httpError 500 "No property data available") :=
  C5_empty_store_500 [] rfl none defaultReq

/-- C6: when the filter eliminates every row of a non-empty store, the
handler succeeds with an empty recommendation list, for every bundle
value (including the absent bundle) — so scoring and ranking are
skipped and the Model Bundle is never accessed. -/
theorem C6_empty_filter_ok :
    ∀ (store : List Row) (req : RecommendationRequest), store.isEmpty = false →
      (filterProps store req.user_preferences).isEmpty = true →
      ∀ (bundle : Option ModelBundle),
        recommend_properties store bundle req = Except.ok ⟨[]⟩ := by
  intro store req h1 h2 bundle
  simp only [recommend_properties]
  rw [if_neg (by simp [h1]), if_pos h2]

/-- Witness for C6: one row, preferences demanding ten bedrooms, absent
bundle. -/
theorem C6_witness :
    recommend_properties [sampleRow] none pickyReq = Except.ok ⟨[]⟩ :=
  C6_empty_filter_ok [sampleRow] pickyReq (by decide) (by decide) none

/-- C9: handling a request returns the process-wide state unchanged:
the Dataset Store and Model Bundle after the request equal their values
before it; filtering and score attachment happen on the request's own
working copy. -/
theorem C9_state_unchanged :
    ∀ (st : ServerState) (req : RecommendationRequest),
      (recommend_handler st req).1 = st ∧
      (recommend_handler st req).1.property_data = st.property_data ∧
      (recommend_handler st req).1.model_bundle = st.model_bundle :=
  fun _ _ => ⟨rfl, rfl, rfl⟩

/-- C10: the handler is deterministic — with the store and bundle
fixed, identical request bodies give identical responses. -/
theorem C10_deterministic :
    ∀ (store : List Row) (bundle : Option ModelBundle)
      (req1 req2 : RecommendationRequest), req1 = req2 →
      recommend_properties store bundle req1 = recommend_properties store bundle req2 := by
  intro store bundle req1 req2 h
  rw [h]

/-- Witness for C10 at a concrete store, bundle and request. -/
theorem C10_witness :
    recommend_properties [sampleRow] (some probaBundle) defaultReq =
      recommend_properties [sampleRow] (some probaBundle) defaultReq :=
  C10_deterministic [sampleRow] (some probaBundle) defaultReq defaultReq rfl

/-- The seven filter predicates exactly as the claim words them: in
particular the city-equality clause applies whenever a city is
specified, i.e. whenever the optional field carries any string. -/
def specSatisfies (p : UserPreferences) (r : Row) : Prop :=
  p.budget_min ≤ r.price ∧ r.price ≤ p.budget_max ∧
  p.min_bedrooms ≤ r.bedrooms ∧
  r.commute_time_min ≤ p.max_commute_time_minutes ∧
  p.min_school_rating ≤ r.school_rating ∧
  (∀ c, p.city = some c → r.city = c) ∧
  ("pool" ∈ p.must_have_features → r.has_pool = true) ∧
  p.min_garage_spaces ≤ r.garage_spaces

/-- C1 fails as stated: with `city := some ""` a city IS specified, but
Python's truthiness test (`if prefs.city:`) treats the empty string as
falsy and skips the city filter, so a row whose city is "Denver"
survives even though the claimed city-equality predicate rejects it. -/
theorem C1_counterexample :
    ¬ (∀ r ∈ filterProps [sampleRow] { city := some "" },
        specSatisfies { city := some "" } r) := by
  intro h
  have hmem : sampleRow ∈ filterProps [sampleRow] ({ city := some "" } : UserPreferences) := by
    decide
  have hs := h sampleRow hmem
  have hcity : sampleRow.city = "" := hs.2.2.2.2.2.1 "" rfl
  exact absurd hcity (by decide)

/-- C1 (amended): the candidate set is exactly the order-preserving
subset of the dataset rows satisfying the conjunction of the seven
predicates, with the city-equality clause applying only when a
NON-EMPTY city is specified (a null or empty city imposes no
constraint); consequently every returned recommendation's underlying
row comes from that subset. -/
theorem C1_preference_filter :
    ∀ (store : List Row) (p : UserPreferences),
      filterProps store p = store.filter (passesAll p) ∧
      List.Sublist (filterProps store p) store ∧
      (∀ r ∈ filterProps store p,
        p.budget_min ≤ r.price ∧ r.price ≤ p.budget_max ∧
        p.min_bedrooms ≤ r.bedrooms ∧
        r.commute_time_min ≤ p.max_commute_time_minutes ∧
        p.min_school_rating ≤ r.school_rating ∧
        (∀ c, p.city = some c → c ≠ "" → r.city = c) ∧
        ("pool" ∈ p.must_have_features → r.has_pool = true) ∧
        p.min_garage_spaces ≤ r.garage_spaces) ∧
      (∀ (bundle : Option ModelBundle) (req : RecommendationRequest)
          (resp : RecommendationResponse) (rec : PropertyRecommendation),
        req.user_preferences = p →
        recommend_properties store bundle req = Except.ok resp →
        rec ∈ resp.recommendations →
        ∃ sr : Row × ℚ, rec = mkRec sr ∧ sr.1 ∈ filterProps store p) := by
  intro store p
  refine ⟨filterProps_eq_filter store p, filterProps_sublist store p, ?_, ?_⟩
  · intro r hr
    have h := (mem_filterProps hr).2
    simp only [passesAll, Bool.and_eq_true, decide_eq_true_eq, Bool.or_eq_true,
      Bool.not_eq_true', beq_iff_eq] at h
    obtain ⟨⟨⟨⟨⟨⟨h1, h2⟩, h3⟩, h4⟩, h5⟩, h6⟩, h7⟩ := h
    refine ⟨h1.1, h1.2, h2, h3, h4, ?_, ?_, h7⟩
    · intro c hc hne
      rcases h5 with h5 | h5
      · rw [hc] at h5
        simp only [truthy] at h5
        exact absurd (by simpa using h5) hne
      · rw [hc] at h5
        simpa using h5
    · intro hp
      rcases h6 with h6 | h6
      · have hc : p.must_have_features.contains "pool" = true :=
          List.contains_iff_exists_mem_beq.mpr ⟨"pool", hp, by simp⟩
        rw [h6] at hc
        cases hc
      · exact h6
  · intro bundle req resp rec hp h hrec
    rcases recommend_rec_provenance h hrec with ⟨b, scored, sr, _, _, _, hr, hmk⟩
    rw [hp] at hr
    exact ⟨sr, hmk, hr⟩

/-- Witness for C1 at a concrete store, preference value and run. -/
theorem C1_witness :
    (({} : UserPreferences).budget_min ≤ sampleRow.price ∧
      sampleRow.price ≤ ({} : UserPreferences).budget_max ∧
      ({} : UserPreferences).min_bedrooms ≤ sampleRow.bedrooms ∧
      sampleRow.commute_time_min ≤ ({} : UserPreferences).max_commute_time_minutes ∧
      ({} : UserPreferences).min_school_rating ≤ sampleRow.school_rating ∧
      (∀ c, ({} : UserPreferences).city = some c → c ≠ "" → sampleRow.city = c) ∧
      ("pool" ∈ ({} : UserPreferences).must_have_features → sampleRow.has_pool = true) ∧
      ({} : UserPreferences).min_garage_spaces ≤ sampleRow.garage_spaces) ∧
    (∃ sr : Row × ℚ, sampleProbaRec = mkRec sr ∧ sr.1 ∈ filterProps [sampleRow] {}) :=
  ⟨(C1_preference_filter [sampleRow] {}).2.2.1 sampleRow (by decide),
   (C1_preference_filter [sampleRow] {}).2.2.2 (some probaBundle) defaultReq
     ⟨[sampleProbaRec]⟩ sampleProbaRec rfl (by decide) (by decide)⟩

/-- C2 fails as stated: under a bundle whose model has no
`predict_proba` and predicts the raw score 2, the handler succeeds and
returns the score 200, outside [0, 100] — the code multiplies by 100
and rounds but never clamps. -/
theorem C2_counterexample :
    recommend_properties [sampleRow] (some constBundle) defaultReq =
      Except.ok ⟨[constRec]⟩ ∧
    constRec ∈ (⟨[constRec]⟩ : RecommendationResponse).recommendations ∧
    ¬(constRec.score ≤ 100) :=
  ⟨by decide, by decide, by decide⟩

/-- C2 (amended): every returned recommendation's score equals its
row's model score multiplied by 100 and rounded to two decimal places;
whenever the per-row model score lies in [0, 1] (as probability outputs
do), the returned score lies in [0, 100]. -/
theorem C2_score_rescaled :
    ∀ (store : List Row) (bundle : Option ModelBundle) (req : RecommendationRequest)
      (resp : RecommendationResponse) (rec : PropertyRecommendation),
      recommend_properties store bundle req = Except.ok resp →
      rec ∈ resp.recommendations →
      ∃ b scored sr, bundle = some b ∧
        scoreCandidates b (filterProps store req.user_preferences) = Except.ok scored ∧
        sr ∈ scored ∧ rec.score = round2 (sr.2 * 100) ∧
        (0 ≤ sr.2 → sr.2 ≤ 1 → 0 ≤ rec.score ∧ rec.score ≤ 100) := by
  intro store bundle req resp rec h hrec
  rcases recommend_rec_provenance h hrec with ⟨b, scored, sr, hb, hs, hmem, _, hmk⟩
  refine ⟨b, scored, sr, hb, hs, hmem, by rw [hmk]; rfl, ?_⟩
  intro h0 h1
  rw [hmk]
  constructor
  · exact round2_nonneg (by linarith)
  · exact round2_le_100 (by linarith)

/-- Witness for C2 at a concrete probability-model run. -/
theorem C2_witness :
    ∃ b scored sr, (some probaBundle : Option ModelBundle) = some b ∧
      scoreCandidates b (filterProps [sampleRow] defaultReq.user_preferences) =
        Except.ok scored ∧
      sr ∈ scored ∧ sampleProbaRec.score = round2 (sr.2 * 100) ∧
      (0 ≤ sr.2 → sr.2 ≤ 1 → 0 ≤ sampleProbaRec.score ∧ sampleProbaRec.score ≤ 100) :=
  C2_score_rescaled [sampleRow] (some probaBundle) defaultReq ⟨[sampleProbaRec]⟩
    sampleProbaRec (by decide) (by decide)

/-- C3 fails as stated: line 110's sort runs with pandas' default
`kind:='quicksort'`, which guarantees only a score-descending
permutation and no tie order. For two tied candidates, the reversed
order is also an admissible output of the code's sort, and in it the
equal-score rows do NOT preserve their original relative order — so
stability cannot be concluded for every admissible output. -/
theorem C3_counterexample :
    ¬ (∀ out : List (Row × ℚ), IsSortValuesResult tieScored out →
        List.Sublist (out.filter (fun sr => decide (sr.2 = 1/2)))
          (tieScored.filter (fun sr => decide (sr.2 = 1/2)))) := by
  intro h
  have hres : IsSortValuesResult tieScored tieSwapped :=
    ⟨List.Perm.swap (sampleRow, 1/2) (sampleRow2, 1/2) [], by decide⟩
  have hsub := h tieSwapped hres
  have h1 : tieSwapped.filter (fun sr => decide (sr.2 = 1/2)) = tieSwapped := by decide
  have h2 : tieScored.filter (fun sr => decide (sr.2 = 1/2)) = tieScored := by decide
  rw [h1, h2] at hsub
  have hlen : tieSwapped.length = tieScored.length := by decide
  have heq : tieSwapped = tieScored := hsub.eq_of_length hlen
  exact absurd heq (by decide)

/-- C3 (amended): the returned recommendation list is sorted by score
in descending order — proved for the handler and, independently of the
embedding's choice of sort, for every output admitted by the code's
sort contract, which also returns exactly the scored candidate rows;
the relative order of equal-score candidates is NOT guaranteed by the
code (pandas' default quicksort is documented unstable), as the
counterexample shows. -/
theorem C3_sorted_desc :
    (∀ (store : List Row) (bundle : Option ModelBundle) (req : RecommendationRequest)
       (resp : RecommendationResponse),
      recommend_properties store bundle req = Except.ok resp →
      resp.recommendations.Pairwise (fun a b => b.score ≤ a.score)) ∧
    (∀ (scored out : List (Row × ℚ)) (n : Int), IsSortValuesResult scored out →
      ((pandasHead out n).map mkRec).Pairwise (fun a b => b.score ≤ a.score) ∧
      (∀ sr ∈ pandasHead out n, sr ∈ scored)) := by
  constructor
  · intro store bundle req resp h
    rcases recommend_ok_cases h with ⟨hresp, _, _⟩ | ⟨b, scored, hb, hs, hresp, _, _⟩
    · rw [hresp]; exact List.Pairwise.nil
    · rw [hresp]
      dsimp only
      rw [List.pairwise_map]
      apply (rankRows_sorted scored req.max_results).imp
      intro a b hab
      exact round2_mono (by
        have : b.2 ≤ a.2 := hab
        linarith)
  · intro scored out n hout
    constructor
    · rw [List.pairwise_map]
      apply (hout.2.sublist (pandasHead_sublist out n)).imp
      intro a b hab
      exact round2_mono (by
        have : b.2 ≤ a.2 := hab
        linarith)
    · intro sr hsr
      exact hout.1.mem_iff.mp ((pandasHead_sublist out n).subset hsr)

/-- Witness for C3: a three-row handler run with distinct prices gives
a descending response, and the contract-level conjunct applied to an
admissible output of the sort on the tied candidate set. -/
theorem C3_witness :
    ((⟨[recHigh, recMid, recLow]⟩ : RecommendationResponse).recommendations.Pairwise
      (fun a b => b.score ≤ a.score)) ∧
    (((pandasHead tieSwapped 3).map mkRec).Pairwise (fun a b => b.score ≤ a.score) ∧
      (∀ sr ∈ pandasHead tieSwapped 3, sr ∈ tieScored)) :=
  ⟨C3_sorted_desc.1 [sampleRow, rowCheap, rowDear] (some priceBundle) defaultReq
      ⟨[recHigh, recMid, recLow]⟩ (by decide),
   C3_sorted_desc.2 tieScored tieSwapped 3
     ⟨List.Perm.swap (sampleRow, 1/2) (sampleRow2, 1/2) [], by decide⟩⟩

/-- C7 fails as stated: with `max_results = -1`, pandas-style
`head (-1)` keeps all but the last row, so three matching rows yield a
response of length 2, and 2 ≤ -1 is false. -/
theorem C7_counterexample :
    (recommend_properties [sampleRow, sampleRow2, sampleRow3] (some constBundle) negReq).map
        (fun resp => (resp.recommendations.length : Int)) = Except.ok 2 ∧
    ¬((2 : Int) ≤ negReq.max_results) :=
  ⟨by decide, by decide⟩

/-- C7 (amended): the number of returned recommendations never exceeds
the number of rows surviving the filter, and it is at most
`max_results` whenever `max_results` is nonnegative (for a negative
`max_results`, `head` instead drops that many rows from the end). -/
theorem C7_length_bounds :
    ∀ (store : List Row) (bundle : Option ModelBundle) (req : RecommendationRequest)
      (resp : RecommendationResponse),
      recommend_properties store bundle req = Except.ok resp →
      resp.recommendations.length ≤ (filterProps store req.user_preferences).length ∧
      (0 ≤ req.max_results →
        (resp.recommendations.length : Int) ≤ req.max_results) := by
  intro store bundle req resp h
  rcases recommend_ok_cases h with ⟨hresp, _, _⟩ | ⟨b, scored, hb, hs, hresp, _, _⟩
  · rw [hresp]
    exact ⟨Nat.zero_le _, fun h0 => by simpa using h0⟩
  · rcases scoreCandidates_ok hs with ⟨raw, preds, _, _, hlen, hzip⟩
    have hslen : scored.length = (filterProps store req.user_preferences).length := by
      rw [hzip, List.length_zip, hlen, Nat.min_self]
    rw [hresp]
    constructor
    · dsimp only
      rw [List.length_map]
      exact le_trans (rankRows_length_le scored req.max_results) (le_of_eq hslen)
    · intro h0
      dsimp only
      rw [List.length_map]
      exact pandasHead_length_le_of_nonneg (scored.insertionSort scoreDesc) h0

/-- Witness for C7 at a concrete successful run. -/
theorem C7_witness :
    (⟨[sampleProbaRec]⟩ : RecommendationResponse).recommendations.length ≤
      (filterProps [sampleRow] defaultReq.user_preferences).length ∧
    (0 ≤ defaultReq.max_results →
      ((⟨[sampleProbaRec]⟩ : RecommendationResponse).recommendations.length : Int) ≤
        defaultReq.max_results) :=
  C7_length_bounds [sampleRow] (some probaBundle) defaultReq ⟨[sampleProbaRec]⟩ (by decide)

/-- The Scoring Stage procedure exactly as the spec words it: extract
the columns named in the bundle's feature list from each candidate row
in that order; apply the scaling transform; invoke the scoring
function, taking the probability of the second (positive) class when a
probability-style output is exposed and the raw scalar output
otherwise. -/
def specScoring (b : ModelBundle) (rows : List Row) : Except RecErr (List ℚ) := do
  let raw ← rows.mapM fun r => b.features.mapM fun c =>
    match r.col c with
    | some v => Except.ok v
    | none => Except.error (RecErr.keyError c)
  let X := b.scaler raw
  match b.predictProba? with
  | some pp => (pp X).mapM fun probs =>
      match probs[1]? with
      | some v => Except.ok v
      | none => Except.error RecErr.indexError
  | none => pure (b.predict X)

/-- C8: the handler's scoring stage computes exactly the spec's
procedure — feature extraction in declared order, scaling, then
`predict_proba`'s positive-class column or the raw `predict` output —
and on success attaches those per-row scores to the candidate rows. -/
theorem C8_scoring_refines_spec :
    (∀ (b : ModelBundle) (rows : List Row),
      specScoring b rows =
        (extractX b.features rows).bind fun raw => bundlePreds b (b.scaler raw)) ∧
    (∀ (b : ModelBundle) (df : List Row) (scored : List (Row × ℚ)),
      scoreCandidates b df = Except.ok scored →
      ∃ preds, specScoring b df = Except.ok preds ∧ preds.length = df.length ∧
        scored = df.zip preds ∧ scored.map Prod.snd = preds) := by
  constructor
  · intro b rows
    rfl
  · intro b df scored h
    rcases scoreCandidates_ok h with ⟨raw, preds, hx, hp, hlen, hzip⟩
    refine ⟨preds, ?_, hlen, hzip, ?_⟩
    · show (extractX b.features df).bind (fun raw => bundlePreds b (b.scaler raw)) =
        Except.ok preds
      rw [hx]
      exact hp
    · rw [hzip]
      exact List.map_snd_zip df preds (le_of_eq hlen)

/-- Witness for C8 at a concrete probability-model run. -/
theorem C8_witness :
    ∃ preds, specScoring probaBundle [sampleRow] = Except.ok preds ∧
      preds.length = [sampleRow].length ∧
      [(sampleRow, (3/4 : ℚ))] = [sampleRow].zip preds ∧
      [(sampleRow, (3/4 : ℚ))].map Prod.snd = preds :=
  C8_scoring_refines_spec.2 probaBundle [sampleRow] [(sampleRow, 3/4)] (by decide)

end PropertyRec
